import Mathlib

/-!
Shallow embedding of the DriverNotif driver app's booking-offer client.

The embedding follows the TypeScript sources:
* the API client (`getBookingRequests`, `acceptBooking`, `updateOnlineStatus`)
* `src/app/(dashboard)/index.tsx` (`DashboardScreen`: the 5-second polling
  effect, `fetchBookingRequests`, `handleToggleOnline`, `handleAcceptBooking`)
* `BookingListView` (`BookingListItem` and its 1-second countdown)
* `BookingSliderView` (`BookingCard`, the pan responder, the swipe handlers)
  together with an earlier variant of the same slider component
* `BookingDetailModal`

Conventions: JavaScript epoch-millisecond timestamps (`new Date(s).getTime()`)
are `Int`; JavaScript numbers carried by offers are `ℚ`; React `useState` cells
become fields of explicit state records; `await`ed network results are passed
in as `Except` values; calls to `Toast.show`, `console.error` and the API
client are collected in an explicit effect log.
-/

/-- Offer wire shape parsed by the dashboard components (the `Booking`
interface of `BookingDetailModal` / `BookingSliderView`). `created_at` and
`expires_at` are the epoch-millisecond values produced by
`new Date(field).getTime()`. -/
structure Booking where
  id : String
  fare : ℚ
  distance : ℚ
  pickup_location : String
  dropoff_location : String
  passenger_name : String
  passenger_phone : Option String := none
  passenger_rating : Option ℚ := none
  estimated_duration : Option Int := none
  created_at : Int
  expires_at : Int
deriving DecidableEq

namespace BookingDetailModal

/-- Countdown of `BookingDetailModal`:
`Math.max(0, Math.floor((expiresAt - now) / 1000))`. -/
def calculateTimeRemaining (expiresAt now : Int) : Int :=
  max 0 ((expiresAt - now).fdiv 1000)

/-- Hard-coded progress denominator of `BookingDetailModal`: `totalTime = 30`. -/
def totalTime : Int := 30

/-- Progress indicator of `BookingDetailModal`:
`(timeRemaining / totalTime) * 100`, no clamping. -/
def progressPercentage (timeRemaining : Int) : ℚ :=
  ((timeRemaining : ℚ) / ((totalTime : Int) : ℚ)) * 100

end BookingDetailModal

namespace BookingListItem

/-- Countdown of `BookingListItem` (list projection row):
`Math.max(0, Math.floor((expiresAt - now) / 1000))`. -/
def calculateTimeRemaining (expiresAt now : Int) : Int :=
  max 0 ((expiresAt - now).fdiv 1000)

/-- Hard-coded progress denominator of `BookingListItem`: `totalTime = 30`. -/
def totalTime : Int := 30

/-- Progress bar of `BookingListItem`: `(timeRemaining / totalTime) * 100`. -/
def progressPercentage (timeRemaining : Int) : ℚ :=
  ((timeRemaining : ℚ) / ((totalTime : Int) : ℚ)) * 100

end BookingListItem

namespace SliderBookingCard

/-- Countdown of the `BookingCard` in the current `BookingSliderView`. -/
def calculateTimeRemaining (expiresAt now : Int) : Int :=
  max 0 ((expiresAt - now).fdiv 1000)

/-- Progress bar of the same card, written inline in the source:
`(timeRemaining / 30) * 100`. -/
def progressPercentage (timeRemaining : Int) : ℚ :=
  ((timeRemaining : ℚ) / 30) * 100

end SliderBookingCard

namespace SwipeBookingCard

/-- Countdown of the `BookingCard` in the earlier slider variant. -/
def calculateTimeRemaining (expiresAt now : Int) : Int :=
  max 0 ((expiresAt - now).fdiv 1000)

/-- Hard-coded progress denominator of that card: `totalTime = 30`. -/
def totalTime : Int := 30

/-- Progress bar of that card: `(timeRemaining / totalTime) * 100`. -/
def progressPercentage (timeRemaining : Int) : ℚ :=
  ((timeRemaining : ℚ) / ((totalTime : Int) : ℚ)) * 100

end SwipeBookingCard

/-- List projection (`BookingListView`): the FlatList renders one
`BookingListItem` per booking, in Offer Set order, with no expiry filter. -/
def listProjection (bookings : List Booking) : List Booking :=
  bookings

/-- Stack projection (`BookingSliderView`):
`bookings.slice(currentIndex, currentIndex + 2).reverse()` — only the frontmost
two offers are materialized; the reverse orders them for z-stacking (the card
rendered at index 1 is the interactive top card). -/
def sliderVisibleCards (bookings : List Booking) (currentIndex : Nat) : List Booking :=
  ((bookings.drop currentIndex).take 2).reverse

/-- Requests the dashboard can issue through the API client. `acceptBooking`
models `POST /api/v1/dashboard/bookings/{id}/accept`; the client function
exists in the API module but no dashboard handler ever invokes it. -/
inductive ApiCall where
  | getBookingRequests
  | acceptBooking (bookingId : String)
  | updateOnlineStatus (isOnline : Bool)
deriving DecidableEq

/-- Toast kinds used by the dashboard. -/
inductive ToastType where
  | success
  | error
  | info
deriving DecidableEq

/-- One `Toast.show(...)` invocation: the user-visible notification channel. -/
structure ToastMsg where
  type : ToastType
  text1 : String
  text2 : String
deriving DecidableEq

/-- Observable effects of one handler run: API requests issued, toasts shown to
the user, and `console.error` developer logs. -/
structure EffectLog where
  apiCalls : List ApiCall
  toasts : List ToastMsg
  consoleErrors : List String
deriving DecidableEq

/-- Empty effect log. -/
def noEffects : EffectLog :=
  { apiCalls := [], toasts := [], consoleErrors := [] }

/-- Wire response of `GET /api/v1/dashboard/booking-requests`:
`{ bookings: Offer[] }`, where the field may be absent. -/
structure BookingsResponse where
  bookings : Option (List Booking)
deriving DecidableEq

/-- `getBookingRequests` from the API client: returns
`response.data.bookings || []` on success and rethrows transport errors. -/
def getBookingRequests (resp : Except String BookingsResponse) :
    Except String (List Booking) :=
  match resp with
  | .ok r => .ok (r.bookings.getD [])
  | .error e => .error e

/-- The `useState` cells of `DashboardScreen` that the booking pipeline
touches. -/
structure DashboardState where
  isOnline : Bool
  bookingRequests : List Booking
  selectedBooking : Option Booking
  isModalVisible : Bool
deriving DecidableEq

/-- Polling effect of `DashboardScreen`:
`setInterval(fetchBookingRequests, 5000)` is installed exactly while `isOnline`
holds — the `useEffect` cleanup clears it on the offline transition and on
teardown. -/
def pollingIntervalActive (s : DashboardState) : Bool :=
  s.isOnline

/-- Refresh period of the polling effect. -/
def pollingIntervalMs : Nat := 5000

/-- `fetchBookingRequests` from `DashboardScreen`: on success
`setBookingRequests(requests || [])`; on failure only
`console.error('Error fetching bookings:', error)` — state untouched, no
toast. -/
def fetchBookingRequests (s : DashboardState) (resp : Except String BookingsResponse) :
    DashboardState × EffectLog :=
  match getBookingRequests resp with
  | .ok requests =>
      ({ s with bookingRequests := requests },
       { apiCalls := [ApiCall.getBookingRequests], toasts := [], consoleErrors := [] })
  | .error e =>
      (s,
       { apiCalls := [ApiCall.getBookingRequests], toasts := [],
         consoleErrors := ["Error fetching bookings: " ++ e] })

/-- `handleToggleOnline` from `DashboardScreen`. `statusResult` is the awaited
outcome of `updateOnlineStatus(newStatus)`; `resp` is the response the
immediate `fetchBookingRequests()` receives when going online. -/
def handleToggleOnline (s : DashboardState) (statusResult : Except String Unit)
    (resp : Except String BookingsResponse) : DashboardState × EffectLog :=
  let newStatus := !s.isOnline
  match statusResult with
  | .error _ =>
      (s, { apiCalls := [ApiCall.updateOnlineStatus newStatus],
            toasts := [{ type := ToastType.error, text1 := "Error",
                         text2 := "Failed to update online status" }],
            consoleErrors := [] })
  | .ok _ =>
      let s1 := { s with isOnline := newStatus }
      let toggleToast : ToastMsg :=
        if newStatus then
          { type := ToastType.success, text1 := "You are now Online",
            text2 := "You can receive booking requests" }
        else
          { type := ToastType.success, text1 := "You are now Offline",
            text2 := "You will not receive new bookings" }
      if newStatus then
        let fr := fetchBookingRequests s1 resp
        (fr.1, { apiCalls := ApiCall.updateOnlineStatus newStatus :: fr.2.apiCalls,
                 toasts := toggleToast :: fr.2.toasts,
                 consoleErrors := fr.2.consoleErrors })
      else
        ({ s1 with bookingRequests := [] },
         { apiCalls := [ApiCall.updateOnlineStatus newStatus],
           toasts := [toggleToast], consoleErrors := [] })

/-- `handleAcceptBooking` from `DashboardScreen`. The whole body is
`setIsModalVisible(false); setSelectedBooking(null)` under the source comment
"Will be implemented with accept booking logic": it issues no API request,
does not touch `bookingRequests`, and passes nothing to navigation. -/
def handleAcceptBooking (s : DashboardState) (bookingId : String) :
    DashboardState × EffectLog :=
  ({ s with isModalVisible := false, selectedBooking := none }, noEffects)

/-- Dashboard state together with the slider's `currentIndex`, the displayed
per-offer countdown values (the `timeRemaining` useState of each mounted
`BookingListItem`, keyed by booking id) and the wall clock. -/
structure SystemState where
  dash : DashboardState
  sliderIndex : Nat
  displayedRemaining : List (String × Int)
  now : Int
deriving DecidableEq

/-- Countdown period of the per-item interval. -/
def countdownIntervalMs : Nat := 1000

/-- One 1-second countdown tick: each mounted item's interval callback runs
`calculateTimeRemaining()`, which recomputes and stores the displayed
`timeRemaining` from the wall clock — and nothing else. It does not remove
offers, touch `bookingRequests` or the slider index, or issue any request. -/
def countdownTick (sys : SystemState) : SystemState :=
  let now := sys.now + 1000
  { sys with
    now := now,
    displayedRemaining :=
      sys.dash.bookingRequests.map
        (fun b => (b.id, BookingListItem.calculateTimeRemaining b.expires_at now)) }

/-- Result of a slider interaction: the new state, the booking passed to the
`onAccept` callback (if it fired), and the effects of the dashboard handler. -/
structure StepResult where
  state : SystemState
  accepted : Option Booking
  log : EffectLog
deriving DecidableEq

/-- `handleSwipeLeft` from `BookingSliderView`:
`setCurrentIndex(prev => prev + 1)` — nothing else. -/
def handleSwipeLeft (sys : SystemState) : StepResult :=
  { state := { sys with sliderIndex := sys.sliderIndex + 1 },
    accepted := none, log := noEffects }

/-- `handleSwipeRight` from `BookingSliderView`: if `bookings[currentIndex]`
exists, invoke `onAccept(bookings[currentIndex])` — wired to the dashboard's
`handleAcceptBooking` — and advance `currentIndex`. -/
def handleSwipeRight (sys : SystemState) : StepResult :=
  match sys.dash.bookingRequests.get? sys.sliderIndex with
  | some b =>
      let r := handleAcceptBooking sys.dash b.id
      { state := { sys with dash := r.1, sliderIndex := sys.sliderIndex + 1 },
        accepted := some b, log := r.2 }
  | none =>
      { state := sys, accepted := none, log := noEffects }

/-- `SWIPE_THRESHOLD = SCREEN_WIDTH * 0.35` from `BookingSliderView`. -/
def SWIPE_THRESHOLD (screenWidth : ℚ) : ℚ :=
  screenWidth * 0.35

/-- Discrete outcome of releasing a swipe gesture. -/
inductive SwipeOutcome where
  | accept
  | decline
  | returnToCenter
deriving DecidableEq

/-- A pan gesture as the responder sees it: the continuous move samples
(`onPanResponderMove` only animates the card position with them) and the final
displacement `(dx, dy)` at release. -/
structure Gesture where
  moves : List (ℚ × ℚ)
  dx : ℚ
  dy : ℚ

/-- Release branch of the card's `panResponder`: `dx > SWIPE_THRESHOLD`
accepts, `dx < -SWIPE_THRESHOLD` declines, anything else springs the card back
to center with no decision. Only `gesture.dx` is read. -/
def onPanResponderRelease (screenWidth : ℚ) (g : Gesture) : SwipeOutcome :=
  if g.dx > SWIPE_THRESHOLD screenWidth then SwipeOutcome.accept
  else if g.dx < -(SWIPE_THRESHOLD screenWidth) then SwipeOutcome.decline
  else SwipeOutcome.returnToCenter

/-- Concrete offer O1 of Scenario B; expires 30 seconds after time 0. -/
def o1 : Booking :=
  { id := "O1", fare := 12, distance := 3, pickup_location := "Main St 1",
    dropoff_location := "Park Ave 2", passenger_name := "Alice",
    created_at := 0, expires_at := 30000 }

/-- Concrete offer O2 of Scenario B. -/
def o2 : Booking :=
  { id := "O2", fare := 8, distance := 2, pickup_location := "Oak St 3",
    dropoff_location := "Pine St 4", passenger_name := "Bob",
    created_at := 0, expires_at := 45000 }

/-- Online dashboard holding `[o1, o2]` with `o1` opened in the modal. -/
def dashAB : DashboardState :=
  { isOnline := true, bookingRequests := [o1, o2],
    selectedBooking := some o1, isModalVisible := true }

/-- Offline dashboard with an empty Offer Set. -/
def dashOff : DashboardState :=
  { isOnline := false, bookingRequests := [],
    selectedBooking := none, isModalVisible := false }

/-- System state over `dashAB` with the slider at the first card. -/
def sysAB : SystemState :=
  { dash := dashAB, sliderIndex := 0, displayedRemaining := [], now := 0 }

/-- Online dashboard holding only `o1`. -/
def dashA : DashboardState :=
  { isOnline := true, bookingRequests := [o1],
    selectedBooking := none, isModalVisible := false }

/-- System state of Scenario A: one offer expiring 30 seconds from `now = 0`. -/
def sysA : SystemState :=
  { dash := dashA, sliderIndex := 0, displayedRemaining := [], now := 0 }

/-- Fetch response delivering exactly `[o2]`. -/
def respB : BookingsResponse :=
  { bookings := some [o2] }

/-- A right swipe ending 150 px to the right (width 400 below: past threshold). -/
def gR : Gesture :=
  { moves := [(10, 0), (80, 5), (120, 4)], dx := 150, dy := 5 }

/-- A different motion path with the same final displacement as `gR`. -/
def gR2 : Gesture :=
  { moves := [(-30, 2), (200, 0)], dx := 150, dy := -3 }

/-- Claim C1, evaluated at the failing input: with Offer Set `[o1, o2]` and
`o1` selected, running the accept handler for `o1` issues no API request at all
(in particular no accept call), leaves the Offer Set equal to `[o1, o2]` rather
than `[o2]`, and only closes the detail modal. -/
theorem c1_accept_handler_is_stub :
    (handleAcceptBooking dashAB o1.id).2.apiCalls = []
    ∧ ApiCall.acceptBooking "O1" ∉ (handleAcceptBooking dashAB o1.id).2.apiCalls
    ∧ (handleAcceptBooking dashAB o1.id).1.bookingRequests = [o1, o2]
    ∧ (handleAcceptBooking dashAB o1.id).1.bookingRequests ≠ [o2]
    ∧ (handleAcceptBooking dashAB o1.id).1.isModalVisible = false
    ∧ (handleAcceptBooking dashAB o1.id).1.selectedBooking = none := by
  decide

/-- Claim C2, counterexample: `o1` expires 30 seconds after `sysA.now`; after
30 one-second ticks its remaining time is 0, yet after the next (31st) tick it
is still in the Offer Set and in both the list and stack projections — the
passive expiry never removes it. -/
theorem c2_expiry_counterexample :
    BookingListItem.calculateTimeRemaining o1.expires_at ((countdownTick^[30]) sysA).now = 0
    ∧ ((countdownTick^[31]) sysA).dash.bookingRequests = [o1]
    ∧ listProjection ((countdownTick^[31]) sysA).dash.bookingRequests = [o1]
    ∧ sliderVisibleCards ((countdownTick^[31]) sysA).dash.bookingRequests
        ((countdownTick^[31]) sysA).sliderIndex = [o1] := by
  decide

/-- Claim C2, amended: the 1-second tick only refreshes the displayed countdown
values and never mutates the dashboard state, so an offer whose remaining time
has reached 0 stays in the Offer Set and in the list projection; it disappears
only once a later fetch response omits it. -/
theorem c2_expired_offer_persists_until_fetch (sys : SystemState) (b : Booking)
    (hb : b ∈ sys.dash.bookingRequests) :
    (countdownTick sys).dash = sys.dash
    ∧ b ∈ listProjection (countdownTick sys).dash.bookingRequests
    ∧ ∀ r : BookingsResponse, b ∉ r.bookings.getD [] →
        b ∉ (fetchBookingRequests (countdownTick sys).dash (Except.ok r)).1.bookingRequests := by
  refine ⟨rfl, hb, ?_⟩
  intro r hr
  simpa [fetchBookingRequests, getBookingRequests] using hr

/-- Witness for the amended C2 at Scenario A's state. -/
theorem c2_expired_offer_persists_witness :
    (countdownTick sysA).dash = sysA.dash
    ∧ o1 ∈ listProjection (countdownTick sysA).dash.bookingRequests
    ∧ o1 ∉ (fetchBookingRequests (countdownTick sysA).dash
        (Except.ok respB)).1.bookingRequests := by
  have h := c2_expired_offer_persists_until_fetch sysA o1 (by decide)
  exact ⟨h.1, h.2.1, h.2.2 respB (by decide)⟩

/-- Claim C3, counterexample: after O1 is resolved by a right swipe, invoking
the resolution action again is not a no-op — the handlers are position-based,
so the second invocation changes the slider state and fires the accept callback
for O2, an offer the driver never resolved. -/
theorem c3_double_resolution_counterexample :
    (handleSwipeRight sysAB).accepted = some o1
    ∧ (handleSwipeRight (handleSwipeRight sysAB).state).state ≠ (handleSwipeRight sysAB).state
    ∧ (handleSwipeRight (handleSwipeRight sysAB).state).accepted = some o2 := by
  decide

/-- Claim C3, amended: the identifier-keyed accept handler is idempotent — a
second `handleAcceptBooking` call with the same identifier leaves the state
fixed — and no invocation ever issues a backend call (the handler is a stub),
so "at most one backend accept call" holds trivially; the slider's swipe
handlers, by contrast, resolve by position (see the counterexample). -/
theorem c3_accept_handler_idempotent (s : DashboardState) (bookingId : String) :
    (handleAcceptBooking (handleAcceptBooking s bookingId).1 bookingId).1
      = (handleAcceptBooking s bookingId).1
    ∧ (handleAcceptBooking s bookingId).2.apiCalls = []
    ∧ (handleAcceptBooking (handleAcceptBooking s bookingId).1 bookingId).2.apiCalls = [] :=
  ⟨rfl, rfl, rfl⟩

/-- Claim C4: every projection's countdown equals
`max 0 (floor((expires_at - now) / 1000))`, is non-negative, is monotonically
non-increasing as `now` advances, and all four sites compute the same value. -/
theorem c4_remainingSeconds_contract (expiresAt now later : Int) (h : now ≤ later) :
    BookingDetailModal.calculateTimeRemaining expiresAt now
        = max 0 ((expiresAt - now).fdiv 1000)
    ∧ 0 ≤ BookingDetailModal.calculateTimeRemaining expiresAt now
    ∧ BookingDetailModal.calculateTimeRemaining expiresAt later
        ≤ BookingDetailModal.calculateTimeRemaining expiresAt now
    ∧ BookingListItem.calculateTimeRemaining expiresAt now
        = BookingDetailModal.calculateTimeRemaining expiresAt now
    ∧ SliderBookingCard.calculateTimeRemaining expiresAt now
        = BookingDetailModal.calculateTimeRemaining expiresAt now
    ∧ SwipeBookingCard.calculateTimeRemaining expiresAt now
        = BookingDetailModal.calculateTimeRemaining expiresAt now := by
  refine ⟨rfl, le_max_left 0 _, ?_, rfl, rfl, rfl⟩
  unfold BookingDetailModal.calculateTimeRemaining
  rw [Int.fdiv_eq_ediv _ (by norm_num), Int.fdiv_eq_ediv _ (by norm_num)]
  omega

/-- Witness for C4 at `expiresAt = 30000`, `now = 0`, `later = 2500`. -/
theorem c4_remainingSeconds_witness :
    BookingDetailModal.calculateTimeRemaining 30000 0
        = max 0 (((30000 : Int) - 0).fdiv 1000)
    ∧ 0 ≤ BookingDetailModal.calculateTimeRemaining 30000 0
    ∧ BookingDetailModal.calculateTimeRemaining 30000 2500
        ≤ BookingDetailModal.calculateTimeRemaining 30000 0
    ∧ BookingListItem.calculateTimeRemaining 30000 0
        = BookingDetailModal.calculateTimeRemaining 30000 0
    ∧ SliderBookingCard.calculateTimeRemaining 30000 0
        = BookingDetailModal.calculateTimeRemaining 30000 0
    ∧ SwipeBookingCard.calculateTimeRemaining 30000 0
        = BookingDetailModal.calculateTimeRemaining 30000 0 :=
  c4_remainingSeconds_contract 30000 0 2500 (by decide)

/-- Claim C5: a successful offline toggle empties the Offer Set and
deactivates the 5-second polling interval; a successful online toggle
activates polling and performs one immediate fetch whose successful response
is applied at once. -/
theorem c5_toggle_online_offline (s : DashboardState) (r : BookingsResponse) :
    (s.isOnline = true →
      (handleToggleOnline s (Except.ok ()) (Except.ok r)).1.bookingRequests = []
      ∧ pollingIntervalActive (handleToggleOnline s (Except.ok ()) (Except.ok r)).1 = false
      ∧ ApiCall.getBookingRequests
          ∉ (handleToggleOnline s (Except.ok ()) (Except.ok r)).2.apiCalls)
    ∧ (s.isOnline = false →
      pollingIntervalActive (handleToggleOnline s (Except.ok ()) (Except.ok r)).1 = true
      ∧ ApiCall.getBookingRequests
          ∈ (handleToggleOnline s (Except.ok ()) (Except.ok r)).2.apiCalls
      ∧ (handleToggleOnline s (Except.ok ()) (Except.ok r)).1.bookingRequests
          = r.bookings.getD []) := by
  constructor
  · intro hOn
    simp [handleToggleOnline, pollingIntervalActive, hOn]
  · intro hOff
    simp [handleToggleOnline, pollingIntervalActive, fetchBookingRequests,
      getBookingRequests, hOff]

/-- Witness for C5: both toggle directions at concrete states. -/
theorem c5_toggle_witness :
    ((handleToggleOnline dashAB (Except.ok ()) (Except.ok respB)).1.bookingRequests = []
      ∧ pollingIntervalActive (handleToggleOnline dashAB (Except.ok ()) (Except.ok respB)).1 = false
      ∧ ApiCall.getBookingRequests
          ∉ (handleToggleOnline dashAB (Except.ok ()) (Except.ok respB)).2.apiCalls)
    ∧ (pollingIntervalActive (handleToggleOnline dashOff (Except.ok ()) (Except.ok respB)).1 = true
      ∧ ApiCall.getBookingRequests
          ∈ (handleToggleOnline dashOff (Except.ok ()) (Except.ok respB)).2.apiCalls
      ∧ (handleToggleOnline dashOff (Except.ok ()) (Except.ok respB)).1.bookingRequests
          = respB.bookings.getD []) :=
  ⟨(c5_toggle_online_offline dashAB respB).1 rfl,
   (c5_toggle_online_offline dashOff respB).2 rfl⟩

/-- Claim C6: a successful fetch replaces the Offer Set wholesale — afterwards
it equals exactly the offers of the latest response, and any previously held
offer absent from that response is gone. -/
theorem c6_fetch_replaces_offer_set (s : DashboardState) (r : BookingsResponse) :
    (fetchBookingRequests s (Except.ok r)).1.bookingRequests = r.bookings.getD []
    ∧ ∀ b : Booking, b ∈ s.bookingRequests → b ∉ r.bookings.getD [] →
        b ∉ (fetchBookingRequests s (Except.ok r)).1.bookingRequests := by
  refine ⟨rfl, ?_⟩
  intro b _ hnotin
  simpa [fetchBookingRequests, getBookingRequests] using hnotin

/-- Witness for C6: fetching `[o2]` over `[o1, o2]` drops `o1`. -/
theorem c6_fetch_replaces_witness :
    (fetchBookingRequests dashAB (Except.ok respB)).1.bookingRequests = [o2]
    ∧ o1 ∉ (fetchBookingRequests dashAB (Except.ok respB)).1.bookingRequests := by
  have h := c6_fetch_replaces_offer_set dashAB respB
  exact ⟨h.1, h.2 o1 (by decide) (by decide)⟩

/-- Claim C7, counterexample: a failing fetch leaves the state untouched and
schedules nothing — but the only notification it produces is a
`console.error` developer log; no toast (the app's user-visible warning
channel) is shown, contradicting "a non-fatal user-visible warning is
surfaced". -/
theorem c7_no_user_visible_warning :
    (fetchBookingRequests dashA (Except.error "Network Error")).1 = dashA
    ∧ (fetchBookingRequests dashA (Except.error "Network Error")).2.toasts = []
    ∧ (fetchBookingRequests dashA (Except.error "Network Error")).2.consoleErrors
        = ["Error fetching bookings: Network Error"] := by
  decide

/-- Claim C7, amended: on a transport error the Offer Set and all dashboard
state are left exactly as before, the failure is only logged to the developer
console with no user-visible toast, the cycle issues exactly one request (no
retry before the next periodic tick), and a following successful fetch is
applied normally. -/
theorem c7_transport_error_behavior (s : DashboardState) (e : String) (r : BookingsResponse) :
    (fetchBookingRequests s (Except.error e)).1 = s
    ∧ (fetchBookingRequests s (Except.error e)).2.toasts = []
    ∧ (fetchBookingRequests s (Except.error e)).2.apiCalls = [ApiCall.getBookingRequests]
    ∧ (fetchBookingRequests s (Except.error e)).2.consoleErrors
        = ["Error fetching bookings: " ++ e]
    ∧ (fetchBookingRequests (fetchBookingRequests s (Except.error e)).1
        (Except.ok r)).1.bookingRequests = r.bookings.getD [] :=
  ⟨rfl, rfl, rfl, rfl, rfl⟩

/-- Claim C8, counterexample: dismissing the top card (O1) does not remove it
from the Offer Set — `handleSwipeLeft` only advances the slider index, so O1
is still in `bookingRequests` and still rendered by the list projection. -/
theorem c8_dismiss_counterexample :
    (handleSwipeLeft sysAB).state.dash.bookingRequests = [o1, o2]
    ∧ o1 ∈ (handleSwipeLeft sysAB).state.dash.bookingRequests
    ∧ o1 ∈ listProjection (handleSwipeLeft sysAB).state.dash.bookingRequests
    ∧ (handleSwipeLeft sysAB).log.apiCalls = [] := by
  decide

/-- Claim C8, amended: dismissal performs no backend call and leaves the
dashboard state — including the Offer Set — unchanged; it only advances the
slider index, which removes the dismissed card from the stack projection. -/
theorem c8_dismiss_is_index_advance (sys : SystemState) :
    (handleSwipeLeft sys).state.dash = sys.dash
    ∧ (handleSwipeLeft sys).log.apiCalls = []
    ∧ (handleSwipeLeft sys).accepted = none
    ∧ (handleSwipeLeft sys).state.sliderIndex = sys.sliderIndex + 1
    ∧ sliderVisibleCards (handleSwipeLeft sys).state.dash.bookingRequests
        (handleSwipeLeft sys).state.sliderIndex
      = ((sys.dash.bookingRequests.drop (sys.sliderIndex + 1)).take 2).reverse :=
  ⟨rfl, rfl, rfl, rfl, rfl⟩

/-- Claim C9: the release decision is exactly the threshold comparison —
accept iff `dx` exceeds 35% of the presentation width, decline iff `dx` is
below minus that, return to center (no decision) iff `|dx|` is within the
threshold — and it depends only on the final displacement, not on the motion
path. -/
theorem c9_release_threshold_decision (w : ℚ) (g g2 : Gesture) (hw : 0 ≤ w) :
    SWIPE_THRESHOLD w = w * (35 / 100)
    ∧ (onPanResponderRelease w g = SwipeOutcome.accept ↔ SWIPE_THRESHOLD w < g.dx)
    ∧ (onPanResponderRelease w g = SwipeOutcome.decline ↔ g.dx < -(SWIPE_THRESHOLD w))
    ∧ (onPanResponderRelease w g = SwipeOutcome.returnToCenter ↔ |g.dx| ≤ SWIPE_THRESHOLD w)
    ∧ (g.dx = g2.dx → onPanResponderRelease w g = onPanResponderRelease w g2) := by
  have hT0 : 0 ≤ SWIPE_THRESHOLD w := by
    unfold SWIPE_THRESHOLD
    positivity
  refine ⟨by unfold SWIPE_THRESHOLD; norm_num, ?_, ?_, ?_, ?_⟩
  · unfold onPanResponderRelease
    split_ifs with h1 h2 <;> simp_all <;> linarith
  · unfold onPanResponderRelease
    split_ifs with h1 h2 <;> simp_all <;> linarith
  · unfold onPanResponderRelease
    split_ifs with h1 h2
    · exact ⟨fun hc => absurd hc (by decide), fun hle =>
        absurd h1 (not_lt.mpr (abs_le.mp hle).2)⟩
    · exact ⟨fun hc => absurd hc (by decide), fun hle =>
        absurd h2 (not_lt.mpr (abs_le.mp hle).1)⟩
    · exact iff_of_true rfl (abs_le.mpr ⟨not_lt.mp h2, not_lt.mp h1⟩)
  · intro hdx
    unfold onPanResponderRelease
    rw [hdx]

/-- Witness for C9 at width 400 and two paths sharing final `dx = 150`. -/
theorem c9_release_threshold_witness :
    SWIPE_THRESHOLD 400 = 400 * (35 / 100)
    ∧ (onPanResponderRelease 400 gR = SwipeOutcome.accept ↔ SWIPE_THRESHOLD 400 < gR.dx)
    ∧ (onPanResponderRelease 400 gR = SwipeOutcome.decline ↔ gR.dx < -(SWIPE_THRESHOLD 400))
    ∧ (onPanResponderRelease 400 gR = SwipeOutcome.returnToCenter ↔ |gR.dx| ≤ SWIPE_THRESHOLD 400)
    ∧ onPanResponderRelease 400 gR = onPanResponderRelease 400 gR2 := by
  have h := c9_release_threshold_decision 400 gR gR2 (by norm_num)
  exact ⟨h.1, h.2.1, h.2.2.1, h.2.2.2.1, h.2.2.2.2 rfl⟩

/-- Claim C10: every progress indicator computes `(timeRemaining / 30) * 100`
against the hard-coded 30-second total, with no upper clamp, so any remaining
time above 30 seconds yields a percentage above 100. -/
theorem c10_progress_unclamped (t : Int) (h : 30 < t) :
    BookingDetailModal.progressPercentage t = ((t : ℚ) / 30) * 100
    ∧ BookingListItem.progressPercentage t = BookingDetailModal.progressPercentage t
    ∧ SliderBookingCard.progressPercentage t = BookingDetailModal.progressPercentage t
    ∧ SwipeBookingCard.progressPercentage t = BookingDetailModal.progressPercentage t
    ∧ 100 < BookingDetailModal.progressPercentage t := by
  have h30 : ((BookingDetailModal.totalTime : Int) : ℚ) = 30 := by
    norm_num [BookingDetailModal.totalTime]
  refine ⟨?_, ?_, ?_, ?_, ?_⟩
  · unfold BookingDetailModal.progressPercentage
    rw [h30]
  · unfold BookingListItem.progressPercentage BookingDetailModal.progressPercentage
    norm_num [BookingListItem.totalTime, BookingDetailModal.totalTime]
  · unfold SliderBookingCard.progressPercentage BookingDetailModal.progressPercentage
    rw [h30]
  · unfold SwipeBookingCard.progressPercentage BookingDetailModal.progressPercentage
    norm_num [SwipeBookingCard.totalTime, BookingDetailModal.totalTime]
  · unfold BookingDetailModal.progressPercentage
    rw [h30]
    have ht : (30 : ℚ) < (t : ℚ) := by exact_mod_cast h
    rw [div_mul_eq_mul_div, lt_div_iff₀ (by norm_num : (0 : ℚ) < 30)]
    linarith

/-- Witness for C10 at `timeRemaining = 45`. -/
theorem c10_progress_witness :
    BookingDetailModal.progressPercentage 45 = ((45 : Int) : ℚ) / 30 * 100
    ∧ BookingListItem.progressPercentage 45 = BookingDetailModal.progressPercentage 45
    ∧ SliderBookingCard.progressPercentage 45 = BookingDetailModal.progressPercentage 45
    ∧ SwipeBookingCard.progressPercentage 45 = BookingDetailModal.progressPercentage 45
    ∧ 100 < BookingDetailModal.progressPercentage 45 :=
  c10_progress_unclamped 45 (by decide)
